import Mathlib

/-!
Shallow embedding of the Threshold Gambit simulation core
(agent.py, enviroment.py, simulation.py).

Python ints are modelled as Int (counters that start at 0 and only
increment are modelled as Nat), Python floats as Rat, raised exceptions
as Except String, and the global random.random() stream as an oracle
draw : Nat -> Rat indexed by the number of previous calls (exactly one
call per environment step).  Wall-clock durations and logging side
effects other than decision_log are not modelled.
-/

/-- Python round() on an exact value: round half to even (banker's
rounding).  Used to model int(round(x)) in LearningAgent.learn_from_history. -/
def pyRound (q : ℚ) : ℤ :=
  let n := Int.floor q
  let frac := q - (n : ℚ)
  if frac < 1/2 then n
  else if 1/2 < frac then n + 1
  else if n % 2 = 0 then n else n + 1

/-- Round half away from zero, the rounding mode the spec text names. -/
def roundHalfAwayFromZero (q : ℚ) : ℤ :=
  if 0 ≤ q then Int.floor (q + 1/2) else -(Int.floor (-q + 1/2))

/-- Arithmetic mean of a list of integers, as a rational. -/
def listMean (xs : List ℤ) : ℚ := (xs.sum : ℚ) / (xs.length : ℚ)

/- ### Environment (enviroment.py, class HarshEnvironment) -/

structure HarshEnvironment where
  reward_probability : ℚ
  steps_taken : ℕ
  total_rewards_given : ℕ
  total_punishments_given : ℕ
  deriving Repr, DecidableEq

/-- HarshEnvironment.__init__: raises ValueError unless 0.0 <= p <= 1.0. -/
def HarshEnvironment.init (reward_probability : ℚ) : Except String HarshEnvironment :=
  if 0 ≤ reward_probability ∧ reward_probability ≤ 1 then
    .ok { reward_probability := reward_probability
          steps_taken := 0
          total_rewards_given := 0
          total_punishments_given := 0 }
  else .error ("reward_probability must be between 0.0 and 1.0")

/-- HarshEnvironment.step: increments steps_taken, draws one sample
(passed in explicitly: the value of random.random() for this call) and
returns whether a reward was given, together with the updated state. -/
def HarshEnvironment.step (env : HarshEnvironment) (sample : ℚ) :
    Bool × HarshEnvironment :=
  let env := { env with steps_taken := env.steps_taken + 1 }
  if sample < env.reward_probability then
    (true, { env with total_rewards_given := env.total_rewards_given + 1 })
  else
    (false, { env with total_punishments_given := env.total_punishments_given + 1 })

structure EnvStats where
  total_steps : ℕ
  total_rewards : ℕ
  total_punishments : ℕ
  configured_reward_prob : ℚ
  actual_reward_rate : ℚ
  deriving Repr, DecidableEq

/-- HarshEnvironment.get_stats. -/
def HarshEnvironment.get_stats (env : HarshEnvironment) : EnvStats :=
  { total_steps := env.steps_taken
    total_rewards := env.total_rewards_given
    total_punishments := env.total_punishments_given
    configured_reward_prob := env.reward_probability
    actual_reward_rate :=
      if 0 < env.steps_taken then (env.total_rewards_given : ℚ) / (env.steps_taken : ℚ)
      else 0 }

/-- HarshEnvironment.reset_stats. -/
def HarshEnvironment.reset_stats (env : HarshEnvironment) : HarshEnvironment :=
  { env with steps_taken := 0, total_rewards_given := 0, total_punishments_given := 0 }

/- ### Agent (agent.py, class SimpleAgent) -/

structure SimpleAgent where
  name : String
  give_up_threshold : ℤ
  consecutive_punishments : ℕ
  total_punishments_received : ℕ
  total_rewards_received : ℕ
  steps_lived : ℕ
  decision_log : List String
  deriving Repr, DecidableEq

def rewardMsg (n : ℕ) : String :=
  "Step " ++ toString n ++ ": REWARD received. Resetting consecutive punishments."

def punishMsg (n k : ℕ) : String :=
  "Step " ++ toString n ++ ": PUNISHMENT received. Consecutive: " ++ toString k ++ "."

def giveUpMsg (n : ℕ) (t : ℤ) (k : ℕ) : String :=
  "Step " ++ toString n ++ ": DECISION: Give Up. Reason: Reached give_up_threshold (" ++
    toString t ++ ") with " ++ toString k ++ " consecutive punishments."

/-- SimpleAgent.__init__: raises ValueError unless give_up_threshold > 0. -/
def SimpleAgent.init (give_up_threshold : ℤ) (name : String) : Except String SimpleAgent :=
  if give_up_threshold ≤ 0 then .error ("give_up_threshold must be positive.")
  else .ok { name := name
             give_up_threshold := give_up_threshold
             consecutive_punishments := 0
             total_punishments_received := 0
             total_rewards_received := 0
             steps_lived := 0
             decision_log := [] }

/-- SimpleAgent.reset. -/
def SimpleAgent.reset (s : SimpleAgent) : SimpleAgent :=
  { s with consecutive_punishments := 0
           total_punishments_received := 0
           total_rewards_received := 0
           steps_lived := 0
           decision_log := [] }

/-- SimpleAgent.record_step. -/
def SimpleAgent.record_step (s : SimpleAgent) (is_reward : Bool) : SimpleAgent :=
  let s := { s with steps_lived := s.steps_lived + 1 }
  if is_reward then
    { s with total_rewards_received := s.total_rewards_received + 1
             consecutive_punishments := 0
             decision_log := s.decision_log ++ [rewardMsg s.steps_lived] }
  else
    { s with total_punishments_received := s.total_punishments_received + 1
             consecutive_punishments := s.consecutive_punishments + 1
             decision_log := s.decision_log ++
               [punishMsg s.steps_lived (s.consecutive_punishments + 1)] }

/-- SimpleAgent.decide_to_continue: false (give up) iff
consecutive_punishments >= give_up_threshold; logs when giving up. -/
def SimpleAgent.decide_to_continue (s : SimpleAgent) : Bool × SimpleAgent :=
  if s.give_up_threshold ≤ (s.consecutive_punishments : ℤ) then
    (false, { s with decision_log := s.decision_log ++
                [giveUpMsg s.steps_lived s.give_up_threshold s.consecutive_punishments] })
  else
    (true, s)

structure GenSummary where
  lifespan : ℕ
  total_rewards : ℕ
  total_punishments : ℕ
  final_consecutive_punishments : ℕ
  decision_log : List String
  deriving Repr, DecidableEq

/-- SimpleAgent.get_generation_summary. -/
def SimpleAgent.get_generation_summary (s : SimpleAgent) : GenSummary :=
  { lifespan := s.steps_lived
    total_rewards := s.total_rewards_received
    total_punishments := s.total_punishments_received
    final_consecutive_punishments := s.consecutive_punishments
    decision_log := s.decision_log }

/- ### The two agent variants.  LearningAgent subclasses SimpleAgent and
adds learning_rate and historical_lifespans (seeded with the initial
threshold); it inherits record_step and decide_to_continue unchanged. -/

inductive Agent where
  | simple (s : SimpleAgent)
  | learning (s : SimpleAgent) (learning_rate : ℚ) (historical_lifespans : List ℤ)
  deriving Repr, DecidableEq

/-- The shared SimpleAgent part of either variant. -/
def Agent.state : Agent → SimpleAgent
  | .simple s => s
  | .learning s _ _ => s

/-- Apply a SimpleAgent update to either variant, keeping the learning
fields of the Learning variant untouched. -/
def Agent.mapState (f : SimpleAgent → SimpleAgent) : Agent → Agent
  | .simple s => .simple (f s)
  | .learning s lr h => .learning (f s) lr h

/-- reset: both variants reset the same per-generation counters; the
Learning variant keeps give_up_threshold and historical_lifespans. -/
def Agent.reset (a : Agent) : Agent := a.mapState SimpleAgent.reset

def Agent.record_step (a : Agent) (is_reward : Bool) : Agent :=
  a.mapState (fun s => s.record_step is_reward)

def Agent.decide_to_continue : Agent → Bool × Agent
  | .simple s =>
    let r := s.decide_to_continue
    (r.1, .simple r.2)
  | .learning s lr h =>
    let r := s.decide_to_continue
    (r.1, .learning r.2 lr h)

/-- The assignment agent.name = ... done by the driver each generation. -/
def Agent.set_name (a : Agent) (name : String) : Agent :=
  a.mapState (fun s => { s with name := name })

/-- LearningAgent.__init__: the superclass constructor validates the
threshold; learning_rate is stored unvalidated; history is seeded with
the initial threshold. -/
def LearningAgent.init (initial_threshold : ℤ) (learning_rate : ℚ) (name : String) :
    Except String Agent :=
  match SimpleAgent.init initial_threshold name with
  | .error e => .error e
  | .ok s => .ok (Agent.learning s learning_rate [initial_threshold])

/-- LearningAgent.learn_from_history, on the components of the Learning
variant.  Returns the updated SimpleAgent part and the updated history. -/
def learnFromHistory (s : SimpleAgent) (learning_rate : ℚ) (hist : List ℤ)
    (current_lifespan : ℤ) : SimpleAgent × List ℤ :=
  let hist := hist ++ [current_lifespan]
  let current_avg : ℚ :=
    if hist ≠ [] then (hist.sum : ℚ) / (hist.length : ℚ)
    else (s.give_up_threshold : ℚ)
  let target_threshold : ℤ := max 1 (pyRound current_avg)
  let new_threshold : ℤ :=
    pyRound ((s.give_up_threshold : ℚ) * (1 - learning_rate) +
      (target_threshold : ℚ) * learning_rate)
  ({ s with give_up_threshold := max 1 new_threshold }, hist)

/-- Dispatch of learn_from_history on the variant; the driver only calls
it on a LearningAgent (isinstance check), so the Fixed variant is
unchanged. -/
def Agent.learn_from_history (a : Agent) (current_lifespan : ℤ) : Agent :=
  match a with
  | .simple s => .simple s
  | .learning s lr h =>
    let r := learnFromHistory s lr h current_lifespan
    .learning r.1 lr r.2

/-- Threshold update as the spec text words it, with round half away
from zero: a second definition, for comparison with learnFromHistory. -/
def spec_learn_threshold (give_up_threshold : ℤ) (learning_rate : ℚ)
    (hist : List ℤ) (current_lifespan : ℤ) : ℤ :=
  let hist2 := hist ++ [current_lifespan]
  let avg : ℚ := (hist2.sum : ℚ) / (hist2.length : ℚ)
  let target : ℤ := max 1 (roundHalfAwayFromZero avg)
  max 1 (roundHalfAwayFromZero ((give_up_threshold : ℚ) * (1 - learning_rate) +
    (target : ℚ) * learning_rate))

/- ### Generation loop (simulation.py, run_simulation inner while loop) -/

inductive EndReason where
  | thresholdReached
  | maxStepsReached
  deriving Repr, DecidableEq

/-- The end_reason strings used by run_simulation. -/
def EndReason.toMessage : EndReason → String
  | .thresholdReached => "Agent Threshold Reached"
  | .maxStepsReached => "Max Steps Reached"

/-- One generation's inner while-True loop.  step_count is the count so
far in this generation; each iteration increments it, performs one
environment step (consuming draw at index env.steps_taken, the number of
previous random.random() calls), records it on the agent, asks the agent
whether to continue, then checks give-up before the max-steps cap.
Structural fuel models the (always reached) termination; none means the
fuel ran out before the loop ended. -/
def genLoop (maxSteps : ℤ) (draw : ℕ → ℚ) :
    ℕ → ℕ → HarshEnvironment → Agent →
    Option (ℕ × EndReason × HarshEnvironment × Agent)
  | 0, _, _, _ => none
  | fuel + 1, step_count, env, agent =>
    let sc := step_count + 1
    let p := env.step (draw env.steps_taken)
    let agent2 := agent.record_step p.1
    let q := agent2.decide_to_continue
    if q.1 = false then some (sc, .thresholdReached, p.2, q.2)
    else if maxSteps ≤ (sc : ℤ) then some (sc, .maxStepsReached, p.2, q.2)
    else genLoop maxSteps draw fuel sc p.2 q.2

/-- Run one generation from step count 0.  Fuel maxSteps.toNat + 1 is
always sufficient (genLoop_isSome_of_fuel). -/
def runGeneration (maxSteps : ℤ) (draw : ℕ → ℚ) (env : HarshEnvironment)
    (agent : Agent) : Option (ℕ × EndReason × HarshEnvironment × Agent) :=
  genLoop maxSteps draw (maxSteps.toNat + 1) 0 env agent

/- ### Simulation driver (simulation.py, run_simulation) -/

structure Config where
  num_generations : ℤ
  reward_probability : ℚ
  agent_type : String
  agent_initial_threshold : ℤ
  learning_rate : ℚ
  max_steps_per_generation : ℤ
  simulation_name : String
  deriving Repr, DecidableEq

structure GenRecord where
  generation : ℤ
  summary : GenSummary
  end_reason : EndReason
  threshold_used : ℤ
  deriving Repr, DecidableEq

/-- The initialization block of run_simulation: construct the
environment, then the agent chosen by agent_type; any ValueError raised
there makes run_simulation return empty results. -/
def initComponents (cfg : Config) : Except String (HarshEnvironment × Agent) :=
  match HarshEnvironment.init cfg.reward_probability with
  | .error e => .error e
  | .ok env =>
    if cfg.agent_type == "LearningAgent" then
      match LearningAgent.init cfg.agent_initial_threshold cfg.learning_rate ("Learner_Gen0") with
      | .error e => .error e
      | .ok agent => .ok (env, agent)
    else
      match SimpleAgent.init cfg.agent_initial_threshold ("Simple_Gen0") with
      | .error e => .error e
      | .ok s => .ok (env, Agent.simple s)

/-- The for-loop over generations: reset the agent, rename it, capture
the threshold used, run one generation, record the summary, and let a
LearningAgent learn from the achieved lifespan.  The none branch of
runGeneration is unreachable (fuel is always sufficient). -/
def simLoop (cfg : Config) (draw : ℕ → ℚ) :
    ℕ → ℤ → HarshEnvironment → Agent → List GenRecord × HarshEnvironment × Agent
  | 0, _, env, agent => ([], env, agent)
  | n + 1, gen_num, env, agent =>
    let agent := (agent.reset).set_name (cfg.agent_type ++ "_Gen" ++ toString gen_num)
    let current_threshold := agent.state.give_up_threshold
    match runGeneration cfg.max_steps_per_generation draw env agent with
    | none => ([], env, agent)
    | some r =>
      let gen_summary := (r.2.2.2).state.get_generation_summary
      let record : GenRecord :=
        { generation := gen_num
          summary := gen_summary
          end_reason := r.2.1
          threshold_used := current_threshold }
      let agent3 := (r.2.2.2).learn_from_history (gen_summary.lifespan : ℤ)
      let rest := simLoop cfg draw n (gen_num + 1) (r.2.2.1) agent3
      (record :: rest.1, rest.2)

/-- run_simulation: initialize, run num_generations generations
(range(1, n+1)), return the records and the final environment stats.
The code returns ([], {}) when construction raises; that failure path is
modelled as the error case carrying the raised message. -/
def runSimulation (cfg : Config) (draw : ℕ → ℚ) :
    Except String (List GenRecord × EnvStats) :=
  match initComponents cfg with
  | .error e => .error e
  | .ok (env, agent) =>
    let r := simLoop cfg draw cfg.num_generations.toNat 1 env agent
    .ok (r.1, (r.2.1).get_stats)

/- ### Basic lemmas about the per-step operations -/

lemma decide_to_continue_false_iff (s : SimpleAgent) :
    (s.decide_to_continue).1 = false ↔
      s.give_up_threshold ≤ (s.consecutive_punishments : ℤ) := by
  by_cases h : s.give_up_threshold ≤ (s.consecutive_punishments : ℤ) <;>
    simp [SimpleAgent.decide_to_continue, h]

lemma decide_to_continue_snd_fields (s : SimpleAgent) :
    ((s.decide_to_continue).2).give_up_threshold = s.give_up_threshold ∧
    ((s.decide_to_continue).2).consecutive_punishments = s.consecutive_punishments ∧
    ((s.decide_to_continue).2).steps_lived = s.steps_lived ∧
    ((s.decide_to_continue).2).total_rewards_received = s.total_rewards_received ∧
    ((s.decide_to_continue).2).total_punishments_received = s.total_punishments_received := by
  by_cases h : s.give_up_threshold ≤ (s.consecutive_punishments : ℤ) <;>
    simp [SimpleAgent.decide_to_continue, h]

lemma record_step_fields (s : SimpleAgent) (b : Bool) :
    (s.record_step b).give_up_threshold = s.give_up_threshold ∧
    (s.record_step b).steps_lived = s.steps_lived + 1 ∧
    (s.record_step b).total_rewards_received + (s.record_step b).total_punishments_received
      = s.total_rewards_received + s.total_punishments_received + 1 := by
  cases b <;> simp [SimpleAgent.record_step] <;> omega

lemma record_step_true_consec (s : SimpleAgent) :
    (s.record_step true).consecutive_punishments = 0 := by
  simp [SimpleAgent.record_step]

lemma record_step_false_consec (s : SimpleAgent) :
    (s.record_step false).consecutive_punishments = s.consecutive_punishments + 1 := by
  simp [SimpleAgent.record_step]

lemma env_step_fields (env : HarshEnvironment) (q : ℚ) :
    ((env.step q).2).steps_taken = env.steps_taken + 1 ∧
    ((env.step q).2).reward_probability = env.reward_probability ∧
    ((env.step q).2).total_rewards_given + ((env.step q).2).total_punishments_given
      = env.total_rewards_given + env.total_punishments_given + 1 := by
  by_cases h : q < env.reward_probability <;> simp [HarshEnvironment.step, h] <;> omega

lemma env_step_fst (env : HarshEnvironment) (q : ℚ) :
    (env.step q).1 = decide (q < env.reward_probability) := by
  by_cases h : q < env.reward_probability <;> simp [HarshEnvironment.step, h]

lemma Agent.state_mapState (f : SimpleAgent → SimpleAgent) (a : Agent) :
    (a.mapState f).state = f a.state := by cases a <;> rfl

lemma Agent.state_record_step (a : Agent) (b : Bool) :
    (a.record_step b).state = a.state.record_step b := by cases a <;> rfl

lemma Agent.state_reset (a : Agent) : (a.reset).state = a.state.reset := by
  cases a <;> rfl

lemma Agent.state_set_name (a : Agent) (nm : String) :
    (a.set_name nm).state = { a.state with name := nm } := by cases a <;> rfl

lemma Agent.decide_fst (a : Agent) :
    (a.decide_to_continue).1 = (a.state.decide_to_continue).1 := by cases a <;> rfl

lemma Agent.decide_snd_state (a : Agent) :
    ((a.decide_to_continue).2).state = (a.state.decide_to_continue).2 := by
  cases a <;> rfl

/-- The learning-only data of a variant: empty for the Fixed variant. -/
def Agent.history : Agent → List ℤ
  | .simple _ => []
  | .learning _ _ h => h

lemma Agent.history_mapState (f : SimpleAgent → SimpleAgent) (a : Agent) :
    (a.mapState f).history = a.history := by cases a <;> rfl

lemma Agent.history_decide (a : Agent) :
    ((a.decide_to_continue).2).history = a.history := by cases a <;> rfl

lemma Agent.history_record (a : Agent) (b : Bool) :
    (a.record_step b).history = a.history := by cases a <;> rfl
/- ### Lemmas about the generation loop -/

lemma genLoop_isSome_of_fuel (m : ℤ) (draw : ℕ → ℚ) :
    ∀ (fuel c : ℕ) (env : HarshEnvironment) (a : Agent),
    1 ≤ fuel → m ≤ (c : ℤ) + fuel →
    (genLoop m draw fuel c env a).isSome := by
  intro fuel
  induction fuel with
  | zero => intro c env a h1 _; omega
  | succ n ih =>
    intro c env a _ h2
    simp only [genLoop]
    split
    · simp
    · split
      · simp
      · rename_i hgive hmax
        apply ih
        · by_contra hn0
          have hn : n = 0 := by omega
          subst hn
          push_cast at h2 hmax
          omega
        · push_cast
          push_cast at h2
          omega

lemma genLoop_counters (m : ℤ) (draw : ℕ → ℚ) :
    ∀ (fuel c : ℕ) (env : HarshEnvironment) (a : Agent) (sc : ℕ) (r : EndReason)
      (env2 : HarshEnvironment) (a2 : Agent),
    genLoop m draw fuel c env a = some (sc, r, env2, a2) →
    env2.steps_taken + c = env.steps_taken + sc ∧
    a2.state.steps_lived + c = a.state.steps_lived + sc ∧
    (a2.state.total_rewards_received + a2.state.total_punishments_received) + c
      = (a.state.total_rewards_received + a.state.total_punishments_received) + sc ∧
    a2.state.give_up_threshold = a.state.give_up_threshold ∧
    env2.reward_probability = env.reward_probability ∧
    c < sc := by
  intro fuel
  induction fuel with
  | zero => intro c env a sc r env2 a2 h; simp [genLoop] at h
  | succ n ih =>
    intro c env a sc r env2 a2 h
    simp only [genLoop] at h
    have hstep := env_step_fields env (draw env.steps_taken)
    have hrec := record_step_fields a.state (env.step (draw env.steps_taken)).1
    have hdec := decide_to_continue_snd_fields ((a.record_step (env.step (draw env.steps_taken)).1).state)
    have hsnd := Agent.decide_snd_state (a.record_step (env.step (draw env.steps_taken)).1)
    rw [Agent.state_record_step] at hdec hsnd
    split at h
    · rw [Option.some.injEq, Prod.mk.injEq, Prod.mk.injEq, Prod.mk.injEq] at h
      obtain ⟨h1, h2, h3, h4⟩ := h
      subst h1 h2 h3 h4
      rw [hsnd]
      refine ⟨by omega, by omega, by omega, by omega, by tauto, by omega⟩
    · split at h
      · rw [Option.some.injEq, Prod.mk.injEq, Prod.mk.injEq, Prod.mk.injEq] at h
        obtain ⟨h1, h2, h3, h4⟩ := h
        subst h1 h2 h3 h4
        rw [hsnd]
        refine ⟨by omega, by omega, by omega, by omega, by tauto, by omega⟩
      · have := ih (c + 1) _ _ _ _ _ _ h
        rw [hsnd] at this
        obtain ⟨i1, i2, i3, i4, i5, i6⟩ := this
        refine ⟨by omega, by omega, by omega, by omega, by rw [i5]; tauto, by omega⟩

lemma genLoop_reason (m : ℤ) (draw : ℕ → ℚ) :
    ∀ (fuel c : ℕ) (env : HarshEnvironment) (a : Agent) (sc : ℕ) (r : EndReason)
      (env2 : HarshEnvironment) (a2 : Agent),
    genLoop m draw fuel c env a = some (sc, r, env2, a2) →
    (r = EndReason.thresholdReached ↔
      a2.state.give_up_threshold ≤ (a2.state.consecutive_punishments : ℤ)) := by
  intro fuel
  induction fuel with
  | zero => intro c env a sc r env2 a2 h; simp [genLoop] at h
  | succ n ih =>
    intro c env a sc r env2 a2 h
    simp only [genLoop] at h
    have hsnd := Agent.decide_snd_state (a.record_step (env.step (draw env.steps_taken)).1)
    rw [Agent.state_record_step] at hsnd
    have hdec := decide_to_continue_snd_fields (a.state.record_step (env.step (draw env.steps_taken)).1)
    have hfalse := decide_to_continue_false_iff (a.state.record_step (env.step (draw env.steps_taken)).1)
    have hfst := Agent.decide_fst (a.record_step (env.step (draw env.steps_taken)).1)
    rw [Agent.state_record_step] at hfst
    split at h
    · rename_i hg
      rw [Option.some.injEq, Prod.mk.injEq, Prod.mk.injEq, Prod.mk.injEq] at h
      obtain ⟨h1, h2, h3, h4⟩ := h
      subst h1 h2 h3 h4
      rw [hsnd, hdec.1, hdec.2.1]
      rw [hfst] at hg
      simpa using hfalse.mp hg
    · rename_i hg
      split at h
      · rw [Option.some.injEq, Prod.mk.injEq, Prod.mk.injEq, Prod.mk.injEq] at h
        obtain ⟨h1, h2, h3, h4⟩ := h
        subst h1 h2 h3 h4
        rw [hsnd, hdec.1, hdec.2.1]
        constructor
        · intro hcon
          exact EndReason.noConfusion hcon
        · intro hp
          exact absurd (hfst.trans (hfalse.mpr hp)) hg
      · exact ih _ _ _ _ _ _ _ h

lemma Agent.decide_snd_of_continue (a : Agent)
    (h : ¬ a.state.give_up_threshold ≤ (a.state.consecutive_punishments : ℤ)) :
    (a.decide_to_continue).2 = a := by
  cases a with
  | simple s =>
    simp only [Agent.state] at h
    simp only [Agent.decide_to_continue, SimpleAgent.decide_to_continue]
    rw [if_neg h]
  | learning s lr hist =>
    simp only [Agent.state] at h
    simp only [Agent.decide_to_continue, SimpleAgent.decide_to_continue]
    rw [if_neg h]

lemma genLoop_no_reward (m : ℤ) (draw : ℕ → ℚ) (hdraw : ∀ i, 0 ≤ draw i) :
    ∀ (fuel c : ℕ) (env : HarshEnvironment) (a : Agent),
    env.reward_probability = 0 →
    ((a.state.consecutive_punishments : ℤ) < a.state.give_up_threshold) →
    ((c : ℤ) + (a.state.give_up_threshold - (a.state.consecutive_punishments : ℤ)) ≤ m) →
    (a.state.give_up_threshold - (a.state.consecutive_punishments : ℤ) ≤ (fuel : ℤ)) →
    (genLoop m draw fuel c env a).map (fun r => ((r.1 : ℤ), r.2.1)) =
      some ((c : ℤ) + (a.state.give_up_threshold - (a.state.consecutive_punishments : ℤ)),
        EndReason.thresholdReached) := by
  intro fuel
  induction fuel with
  | zero => intro c env a h0 hlt hle hfuel; omega
  | succ n ih =>
    intro c env a h0 hlt hle hfuel
    simp only [genLoop]
    have hfst : (env.step (draw env.steps_taken)).1 = false := by
      rw [env_step_fst, h0]
      simp only [decide_eq_false_iff_not]
      exact not_lt.mpr (hdraw env.steps_taken)
    rw [hfst]
    have hrts := Agent.state_record_step a false
    have hconc := record_step_false_consec a.state
    have hth := (record_step_fields a.state false).1
    by_cases hgive : a.state.give_up_threshold ≤ ((a.state.consecutive_punishments : ℤ) + 1)
    · have hfstd : ((a.record_step false).decide_to_continue).1 = false := by
        rw [Agent.decide_fst, hrts, decide_to_continue_false_iff, hth, hconc]
        push_cast
        omega
      rw [if_pos hfstd]
      simp only [Option.map_some', Option.some.injEq, Prod.mk.injEq]
      exact ⟨by push_cast; omega, trivial⟩
    · have hnot : ¬ (a.record_step false).state.give_up_threshold ≤
          ((a.record_step false).state.consecutive_punishments : ℤ) := by
        rw [hrts, hth, hconc]
        push_cast
        omega
      have hfstd : ¬ ((a.record_step false).decide_to_continue).1 = false := by
        rw [Agent.decide_fst, decide_to_continue_false_iff]
        exact hnot
      rw [if_neg hfstd]
      rw [Agent.decide_snd_of_continue _ hnot]
      rw [if_neg (by push_cast; omega)]
      have henv2 := env_step_fields env (draw env.steps_taken)
      have hrw : (a.record_step false).state.give_up_threshold -
          ((a.record_step false).state.consecutive_punishments : ℤ) =
          a.state.give_up_threshold - (a.state.consecutive_punishments : ℤ) - 1 := by
        rw [hrts, hth, hconc]
        push_cast
        omega
      have := ih (c + 1) (env.step (draw env.steps_taken)).2 (a.record_step false)
        (by rw [henv2.2.1]; exact h0)
        (by rw [hrts, hth, hconc]; push_cast; omega)
        (by rw [hrw]; push_cast; omega)
        (by rw [hrw]; omega)
      rw [this, hrw]
      simp only [Option.some.injEq, Prod.mk.injEq]
      exact ⟨by push_cast; omega, trivial⟩

lemma genLoop_all_reward (m : ℤ) (draw : ℕ → ℚ) (hdraw : ∀ i, draw i < 1) :
    ∀ (fuel c : ℕ) (env : HarshEnvironment) (a : Agent),
    env.reward_probability = 1 →
    1 ≤ a.state.give_up_threshold →
    ((c : ℤ) < m) → (m ≤ (c : ℤ) + (fuel : ℤ)) →
    (genLoop m draw fuel c env a).map (fun r => ((r.1 : ℤ), r.2.1)) =
      some (m, EndReason.maxStepsReached) := by
  intro fuel
  induction fuel with
  | zero => intro c env a h0 hth hcm hfuel; omega
  | succ n ih =>
    intro c env a h0 hth hcm hfuel
    simp only [genLoop]
    have hfst : (env.step (draw env.steps_taken)).1 = true := by
      rw [env_step_fst, h0]
      simp only [decide_eq_true_eq]
      exact hdraw env.steps_taken
    rw [hfst]
    have hrts := Agent.state_record_step a true
    have hconc := record_step_true_consec a.state
    have hth2 := (record_step_fields a.state true).1
    have hnot : ¬ (a.record_step true).state.give_up_threshold ≤
        ((a.record_step true).state.consecutive_punishments : ℤ) := by
      rw [hrts, hth2, hconc]
      push_cast
      omega
    have hfstd : ¬ ((a.record_step true).decide_to_continue).1 = false := by
      rw [Agent.decide_fst, decide_to_continue_false_iff]
      exact hnot
    rw [if_neg hfstd]
    rw [Agent.decide_snd_of_continue _ hnot]
    by_cases hm : m ≤ ((c + 1 : ℕ) : ℤ)
    · rw [if_pos hm]
      simp only [Option.map_some', Option.some.injEq, Prod.mk.injEq]
      exact ⟨by push_cast; omega, trivial⟩
    · rw [if_neg hm]
      have henv2 := env_step_fields env (draw env.steps_taken)
      exact ih (c + 1) (env.step (draw env.steps_taken)).2 (a.record_step true)
        (by rw [henv2.2.1]; exact h0)
        (by rw [hrts, hth2]; exact hth)
        (by push_cast at hm ⊢; omega)
        (by push_cast at hfuel ⊢; omega)

/- ### Concrete inputs used by witnesses and counterexamples -/

def dZero : ℕ → ℚ := fun _ => 0

def envR0 : HarshEnvironment :=
  { reward_probability := 0, steps_taken := 0, total_rewards_given := 0,
    total_punishments_given := 0 }

def envR1 : HarshEnvironment :=
  { reward_probability := 1, steps_taken := 0, total_rewards_given := 0,
    total_punishments_given := 0 }

def sT2 : SimpleAgent :=
  { name := "Simple_Gen0", give_up_threshold := 2, consecutive_punishments := 0,
    total_punishments_received := 0, total_rewards_received := 0, steps_lived := 0,
    decision_log := [] }

def agentT2 : Agent := Agent.simple sT2

/- ### C1 -/

/-- C1: for every agent (either variant) and every state, decide_to_continue
returns false (give up) iff consecutive_punishments >= give_up_threshold, and
a generation ends with reason ThresholdReached exactly when the final decision
was to give up: the give-up decision is the only agent-side trigger. -/
theorem C1_decide_iff_and_sole_agent_trigger :
    (∀ s : SimpleAgent,
      (s.decide_to_continue).1 = false ↔
        s.give_up_threshold ≤ (s.consecutive_punishments : ℤ)) ∧
    (∀ (m : ℤ) (draw : ℕ → ℚ) (fuel c : ℕ) (env : HarshEnvironment) (a : Agent)
       (sc : ℕ) (r : EndReason) (env2 : HarshEnvironment) (a2 : Agent),
      genLoop m draw fuel c env a = some (sc, r, env2, a2) →
      (r = EndReason.thresholdReached ↔ (a2.decide_to_continue).1 = false)) := by
  constructor
  · exact decide_to_continue_false_iff
  · intro m draw fuel c env a sc r env2 a2 h
    rw [genLoop_reason m draw fuel c env a sc r env2 a2 h, Agent.decide_fst,
      decide_to_continue_false_iff]

def c1res : ℕ × EndReason × HarshEnvironment × Agent :=
  (genLoop 2 dZero 3 0 envR0 agentT2).getD (0, EndReason.maxStepsReached, envR0, agentT2)

/-- Witness for C1 on a concrete two-step run with reward probability 0. -/
theorem C1_witness :
    c1res.2.1 = EndReason.thresholdReached ↔
      ((c1res.2.2.2).decide_to_continue).1 = false :=
  C1_decide_iff_and_sole_agent_trigger.2 2 dZero 3 0 envR0 agentT2
    c1res.1 c1res.2.1 c1res.2.2.1 c1res.2.2.2 rfl

/- ### C4 -/

/-- C4: the give-up decision is checked before the max-steps cap: whenever a
generation ends at a step count that reached the cap but the final agent state
satisfies the give-up condition, the recorded reason is ThresholdReached, not
MaxStepsReached. -/
theorem C4_giveup_checked_before_max_cap :
    ∀ (m : ℤ) (draw : ℕ → ℚ) (fuel c : ℕ) (env : HarshEnvironment) (a : Agent)
      (sc : ℕ) (r : EndReason) (env2 : HarshEnvironment) (a2 : Agent),
    genLoop m draw fuel c env a = some (sc, r, env2, a2) →
    m ≤ (sc : ℤ) →
    a2.state.give_up_threshold ≤ (a2.state.consecutive_punishments : ℤ) →
    r = EndReason.thresholdReached := by
  intro m draw fuel c env a sc r env2 a2 h _ hg
  exact (genLoop_reason m draw fuel c env a sc r env2 a2 h).mpr hg

def c4res : ℕ × EndReason × HarshEnvironment × Agent :=
  (genLoop 2 dZero 3 0 envR0 agentT2).getD (0, EndReason.maxStepsReached, envR0, agentT2)

/-- Witness for C4: with threshold 2, max steps 2 and reward probability 0 the
agent gives up on the exact step that reaches the cap; the reason is
ThresholdReached. -/
theorem C4_witness : c4res.2.1 = EndReason.thresholdReached :=
  C4_giveup_checked_before_max_cap 2 dZero 3 0 envR0 agentT2
    c4res.1 c4res.2.1 c4res.2.2.1 c4res.2.2.2 rfl (by decide) (by decide)

/- ### C3 -/

/-- C3 as stated is false: with give_up_threshold 2 but
max_steps_per_generation 1 and reward probability 0, the generation ends after
1 step with MaxStepsReached, not after T = 2 steps with ThresholdReached. -/
theorem C3_counterexample :
    (runGeneration 1 dZero envR0 agentT2).map (fun r => (r.1, r.2.1)) =
      some (1, EndReason.maxStepsReached) := by decide

/-- C3 (amended): for reward probability 0 and a Fixed agent with fresh
counters and give_up_threshold T with 1 ≤ T, provided T does not exceed
max_steps_per_generation, the generation ends in exactly T steps with
ThresholdReached. -/
theorem C3_zero_reward_exactly_T_steps (m : ℤ) (draw : ℕ → ℚ)
    (env : HarshEnvironment) (s : SimpleAgent)
    (hdraw : ∀ i, 0 ≤ draw i) (hp : env.reward_probability = 0)
    (hc : s.consecutive_punishments = 0)
    (hT : 1 ≤ s.give_up_threshold) (hTm : s.give_up_threshold ≤ m) :
    (runGeneration m draw env (Agent.simple s)).map (fun r => ((r.1 : ℤ), r.2.1)) =
      some (s.give_up_threshold, EndReason.thresholdReached) := by
  unfold runGeneration
  have h2 := genLoop_no_reward m draw hdraw (m.toNat + 1) 0 env (Agent.simple s) hp
    (by simp only [Agent.state, hc]; push_cast; omega)
    (by simp only [Agent.state, hc]; push_cast; omega)
    (by simp only [Agent.state, hc]; push_cast; omega)
  rw [h2]
  simp only [Agent.state, hc]
  push_cast
  norm_num

/-- Witness for the amended C3: threshold 2, max steps 5, reward probability 0
ends in exactly 2 steps with ThresholdReached. -/
theorem C3_witness :
    (runGeneration 5 dZero envR0 (Agent.simple sT2)).map (fun r => ((r.1 : ℤ), r.2.1)) =
      some (sT2.give_up_threshold, EndReason.thresholdReached) :=
  C3_zero_reward_exactly_T_steps 5 dZero envR0 sT2
    (fun _ => le_refl 0) rfl rfl (by decide) (by decide)

/- ### C5 -/

/-- C5: for reward probability 1 a generation never ends by giving up: it ends
only via the max-steps cap, at exactly max_steps_per_generation steps, with
MaxStepsReached (for any agent variant with valid threshold and a positive
cap). -/
theorem C5_full_reward_ends_at_max_steps (m : ℤ) (draw : ℕ → ℚ)
    (env : HarshEnvironment) (a : Agent)
    (hdraw : ∀ i, draw i < 1) (hp : env.reward_probability = 1)
    (hT : 1 ≤ a.state.give_up_threshold) (hm : 1 ≤ m) :
    (runGeneration m draw env a).map (fun r => ((r.1 : ℤ), r.2.1)) =
      some (m, EndReason.maxStepsReached) := by
  unfold runGeneration
  exact genLoop_all_reward m draw hdraw (m.toNat + 1) 0 env a hp hT (by omega)
    (by push_cast; omega)

/-- Witness for C5: reward probability 1, max steps 3, threshold 2: ends at
step 3 with MaxStepsReached. -/
theorem C5_witness :
    (runGeneration 3 dZero envR1 agentT2).map (fun r => ((r.1 : ℤ), r.2.1)) =
      some (3, EndReason.maxStepsReached) :=
  C5_full_reward_ends_at_max_steps 3 dZero envR1 agentT2
    (fun _ => (by norm_num : (0 : ℚ) < 1)) rfl (by decide) (by decide)

/- ### C6 -/

/-- C6: reset() zeroes consecutive_punishments, total rewards, total
punishments and steps_lived, clears decision_log, and leaves
give_up_threshold unchanged in both variants; the Learning variant also
keeps historical_lifespans, so the threshold after reset equals the
threshold before. -/
theorem C6_reset_clears_counters_keeps_threshold :
    ∀ a : Agent,
      (a.reset).state.consecutive_punishments = 0 ∧
      (a.reset).state.total_punishments_received = 0 ∧
      (a.reset).state.total_rewards_received = 0 ∧
      (a.reset).state.steps_lived = 0 ∧
      (a.reset).state.decision_log = [] ∧
      (a.reset).state.give_up_threshold = a.state.give_up_threshold ∧
      (a.reset).history = a.history := by
  intro a
  cases a <;>
    simp [Agent.reset, Agent.mapState, Agent.state, Agent.history, SimpleAgent.reset]

/- ### C9 -/

/-- C9: record_step preserves steps_lived = rewards + punishments on the
agent, and step preserves steps_taken = rewards + punishments on the
environment. -/
theorem C9_step_count_invariants :
    (∀ (s : SimpleAgent) (b : Bool),
      s.steps_lived = s.total_rewards_received + s.total_punishments_received →
      (s.record_step b).steps_lived =
        (s.record_step b).total_rewards_received +
          (s.record_step b).total_punishments_received) ∧
    (∀ (env : HarshEnvironment) (q : ℚ),
      env.steps_taken = env.total_rewards_given + env.total_punishments_given →
      ((env.step q).2).steps_taken =
        ((env.step q).2).total_rewards_given + ((env.step q).2).total_punishments_given) := by
  constructor
  · intro s b h
    have h1 := record_step_fields s b
    omega
  · intro env q h
    have h1 := env_step_fields env q
    omega

/-- Witness for C9 at a concrete agent state and environment. -/
theorem C9_witness :
    (sT2.record_step false).steps_lived =
      (sT2.record_step false).total_rewards_received +
        (sT2.record_step false).total_punishments_received ∧
    ((envR0.step 0).2).steps_taken =
      ((envR0.step 0).2).total_rewards_given + ((envR0.step 0).2).total_punishments_given :=
  ⟨C9_step_count_invariants.1 sT2 false (by decide),
   C9_step_count_invariants.2 envR0 0 (by decide)⟩

/- ### C10 -/

/-- C10: constructing a LearningAgent succeeds for every learning_rate,
including values outside [0,1], as long as initial_threshold is positive:
the learning rate is never validated. -/
theorem C10_learning_rate_never_validated :
    ∀ (lr : ℚ) (t : ℤ) (name : String), 0 < t →
      LearningAgent.init t lr name =
        .ok (Agent.learning
          { name := name, give_up_threshold := t, consecutive_punishments := 0,
            total_punishments_received := 0, total_rewards_received := 0,
            steps_lived := 0, decision_log := [] } lr [t]) := by
  intro lr t name ht
  unfold LearningAgent.init SimpleAgent.init
  rw [if_neg (by omega : ¬ t ≤ 0)]

/-- Witness for C10 with learning_rate 7, far outside [0,1]. -/
theorem C10_witness :
    LearningAgent.init 3 7 "LearningAgent" =
      .ok (Agent.learning
        { name := "LearningAgent", give_up_threshold := 3, consecutive_punishments := 0,
          total_punishments_received := 0, total_rewards_received := 0,
          steps_lived := 0, decision_log := [] } 7 [3]) :=
  C10_learning_rate_never_validated 7 3 "LearningAgent" (by decide)

/- ### C2 -/

def sL2 : SimpleAgent :=
  { name := "LearningAgent", give_up_threshold := 2, consecutive_punishments := 0,
    total_punishments_received := 0, total_rewards_received := 0, steps_lived := 0,
    decision_log := [] }

/-- C2 as stated is false: with threshold 2, learning_rate 1/4, history [2]
and lifespan 6 (an interpolation value of exactly 5/2, computed exactly in
binary floating point), Python's round gives 2 (half to even) while the
round-half-away-from-zero rule the claim states gives 3. -/
theorem C2_rounding_counterexample :
    ((Agent.learning sL2 (1/4) [2]).learn_from_history 6).state.give_up_threshold = 2 ∧
    spec_learn_threshold sL2.give_up_threshold (1/4) [2] 6 = 3 := by
  have hne : (([2, 6] : List ℤ) = []) = False := by simp
  constructor
  · simp only [Agent.learn_from_history, learnFromHistory, Agent.state]
    norm_num [sL2, pyRound, hne]
  · norm_num [spec_learn_threshold, roundHalfAwayFromZero, sL2]

/-- The threshold update as C2 describes it, except with Python's round
half to even in place of round half away from zero: interpolate the old
threshold toward target = max(1, round(mean of the full history)) and
clamp to a minimum of 1. -/
def learned_threshold (t : ℤ) (lr : ℚ) (hist2 : List ℤ) : ℤ :=
  max 1 (pyRound ((t : ℚ) * (1 - lr) + ((max 1 (pyRound (listMean hist2))) : ℚ) * lr))

/-- C2 (amended): learn_from_history appends the lifespan to the history,
takes the arithmetic mean of the full history (seed value included), sets
target = max(1, round(avg)), interpolates with the learning rate, rounds,
and clamps to a minimum of 1 — where round is Python's round half to even,
not round half away from zero. -/
theorem C2_learn_from_history_amended :
    ∀ (s : SimpleAgent) (lr : ℚ) (h : List ℤ) (l : ℤ),
      (Agent.learning s lr h).learn_from_history l =
        Agent.learning
          { s with give_up_threshold := learned_threshold s.give_up_threshold lr (h ++ [l]) }
          lr (h ++ [l]) := by
  intro s lr h l
  simp [Agent.learn_from_history, learnFromHistory, listMean, learned_threshold]

/- ### C7 -/

lemma initComponents_env_steps (cfg : Config) (env : HarshEnvironment) (a : Agent) :
    initComponents cfg = .ok (env, a) → env.steps_taken = 0 := by
  intro h
  unfold initComponents at h
  split at h
  · simp at h
  · rename_i env1 heq
    have he : env1.steps_taken = 0 := by
      unfold HarshEnvironment.init at heq
      split at heq
      · cases heq
        rfl
      · cases heq
    split at h
    · split at h
      · simp at h
      · simp only [Except.ok.injEq, Prod.mk.injEq] at h
        rw [← h.1]
        exact he
    · split at h
      · simp at h
      · simp only [Except.ok.injEq, Prod.mk.injEq] at h
        rw [← h.1]
        exact he

lemma reset_name_state_zero (a : Agent) (nm : String) :
    ((a.reset).set_name nm).state.steps_lived = 0 ∧
    ((a.reset).set_name nm).state.total_rewards_received = 0 ∧
    ((a.reset).set_name nm).state.total_punishments_received = 0 := by
  rw [Agent.state_set_name, Agent.state_reset]
  exact ⟨rfl, rfl, rfl⟩

lemma simLoop_steps_invariant (cfg : Config) (draw : ℕ → ℚ) :
    ∀ (n : ℕ) (gen_num : ℤ) (env : HarshEnvironment) (agent : Agent),
    ((simLoop cfg draw n gen_num env agent).2.1).steps_taken =
        env.steps_taken +
          (((simLoop cfg draw n gen_num env agent).1).map (fun g => g.summary.lifespan)).sum ∧
    (((simLoop cfg draw n gen_num env agent).1).map
        (fun g => g.summary.total_rewards + g.summary.total_punishments)).sum =
      (((simLoop cfg draw n gen_num env agent).1).map (fun g => g.summary.lifespan)).sum := by
  intro n
  induction n with
  | zero => intro gen_num env agent; simp [simLoop]
  | succ k ih =>
    intro gen_num env agent
    simp only [simLoop]
    rcases hr : runGeneration cfg.max_steps_per_generation draw env
        ((agent.reset).set_name (cfg.agent_type ++ "_Gen" ++ toString gen_num)) with _ | r
    · simp
    · simp only []
      unfold runGeneration at hr
      have hcnt := genLoop_counters cfg.max_steps_per_generation draw
        (cfg.max_steps_per_generation.toNat + 1) 0 env
        ((agent.reset).set_name (cfg.agent_type ++ "_Gen" ++ toString gen_num))
        r.1 r.2.1 r.2.2.1 r.2.2.2 hr
      have hz := reset_name_state_zero agent (cfg.agent_type ++ "_Gen" ++ toString gen_num)
      have hihs := ih (gen_num + 1) r.2.2.1
        ((r.2.2.2).learn_from_history ((r.2.2.2).state.get_generation_summary.lifespan : ℤ))
      simp only [List.map_cons, List.sum_cons, SimpleAgent.get_generation_summary] at hihs ⊢
      constructor
      · rw [hihs.1]
        have e1 := hcnt.1
        have e2 := hcnt.2.1
        have e3 := hcnt.2.2.1
        omega
      · rw [hihs.2]
        have e2 := hcnt.2.1
        have e3 := hcnt.2.2.1
        omega

/-- C7: for every completed run, the per-generation totals of rewards plus
punishments sum to the total of the lifespans, and the final environment
total_steps statistic equals that same sum. -/
theorem C7_aggregate_invariant :
    ∀ (cfg : Config) (draw : ℕ → ℚ) (records : List GenRecord) (stats : EnvStats),
    runSimulation cfg draw = .ok (records, stats) →
    ((records.map (fun g => g.summary.total_rewards + g.summary.total_punishments)).sum =
      (records.map (fun g => g.summary.lifespan)).sum) ∧
    stats.total_steps = (records.map (fun g => g.summary.lifespan)).sum := by
  intro cfg draw records stats h
  unfold runSimulation at h
  rcases hic : initComponents cfg with e | p
  · rw [hic] at h
    simp at h
  · rw [hic] at h
    obtain ⟨env0, agent0⟩ := p
    simp only [Except.ok.injEq, Prod.mk.injEq] at h
    obtain ⟨hrec, hstats⟩ := h
    have h0 := initComponents_env_steps cfg env0 agent0 hic
    have hinv := simLoop_steps_invariant cfg draw cfg.num_generations.toNat 1 env0 agent0
    subst hrec
    constructor
    · exact hinv.2
    · rw [← hstats]
      simp only [HarshEnvironment.get_stats]
      rw [hinv.1, h0]
      omega

def c7statsD : EnvStats :=
  { total_steps := 0, total_rewards := 0, total_punishments := 0,
    configured_reward_prob := 0, actual_reward_rate := 0 }

def cfgC7 : Config :=
  { num_generations := 2, reward_probability := 0, agent_type := "SimpleAgent",
    agent_initial_threshold := 2, learning_rate := 0, max_steps_per_generation := 5,
    simulation_name := "Witness" }

def c7res : List GenRecord × EnvStats :=
  (runSimulation cfgC7 dZero).toOption.getD ([], c7statsD)

/-- Witness for C7 on a concrete completed two-generation run. -/
theorem C7_witness :
    ((c7res.1.map (fun g => g.summary.total_rewards + g.summary.total_punishments)).sum =
      (c7res.1.map (fun g => g.summary.lifespan)).sum) ∧
    c7res.2.total_steps = (c7res.1.map (fun g => g.summary.lifespan)).sum :=
  C7_aggregate_invariant cfgC7 dZero c7res.1 c7res.2 rfl

/- ### C8 -/

def cfgC8 : Config :=
  { num_generations := 0, reward_probability := 1, agent_type := "SimpleAgent",
    agent_initial_threshold := 5, learning_rate := 1, max_steps_per_generation := 0,
    simulation_name := "C8" }

/-- C8 as stated is false: a configuration with non-positive
num_generations and non-positive max_steps_per_generation but a valid
threshold and probability raises no error: construction succeeds and the
run completes normally. -/
theorem C8_counterexample :
    cfgC8.num_generations ≤ 0 ∧ cfgC8.max_steps_per_generation ≤ 0 ∧
    (initComponents cfgC8).isOk = true ∧ (runSimulation cfgC8 dZero).isOk = true :=
  ⟨by decide, by decide, by decide, by decide⟩

/-- C8 (amended): an invalid-configuration error is raised at construction
time iff the threshold is non-positive or the reward probability is outside
[0,1]; non-positive generation or max-step counts are never validated.
Such an error is fatal: the run produces no generation records and is not
retried (the run fails exactly when construction fails). -/
theorem C8_validation_iff :
    ∀ cfg : Config,
      ((initComponents cfg).isOk = false ↔
        (cfg.agent_initial_threshold ≤ 0 ∨
          cfg.reward_probability < 0 ∨ 1 < cfg.reward_probability)) ∧
      (∀ draw : ℕ → ℚ, (runSimulation cfg draw).isOk = (initComponents cfg).isOk) := by
  intro cfg
  constructor
  · by_cases hp : 0 ≤ cfg.reward_probability ∧ cfg.reward_probability ≤ 1
    · by_cases ht : cfg.agent_initial_threshold ≤ 0
      · refine iff_of_true ?_ (Or.inl ht)
        unfold initComponents HarshEnvironment.init LearningAgent.init SimpleAgent.init
        rw [if_pos hp]
        simp only []
        simp only [if_pos ht]
        split <;> rfl
      · refine iff_of_false ?_ ?_
        · unfold initComponents HarshEnvironment.init LearningAgent.init SimpleAgent.init
          rw [if_pos hp]
          simp only [if_neg ht]
          split <;> simp [Except.toBool]
        · intro hd
          rcases hd with h | h | h
          · exact ht h
          · exact absurd h hp.1.not_lt
          · exact absurd h hp.2.not_lt
    · refine iff_of_true ?_ ?_
      · unfold initComponents HarshEnvironment.init LearningAgent.init SimpleAgent.init
        rw [if_neg hp]
        rfl
      · rcases not_and_or.mp hp with h | h
        · exact Or.inr (Or.inl (not_le.mp h))
        · exact Or.inr (Or.inr (not_le.mp h))
  · intro draw
    unfold runSimulation
    rcases hic : initComponents cfg with e | p
    · rfl
    · obtain ⟨env0, ag0⟩ := p
      rfl
